import Mathlib

/-!
Verification of the danmaku (comment-overlay) service and the HLS-player
error-handling state machine of this repository.

The definitions below are a shallow embedding of
`src/lib/player/danmaku-service.ts` and the `LocalHlsPlayer` component.
JavaScript numbers are idealized as exact rationals (`ℚ`), with a separate
constructor for the infinities produced by `parseFloat("Infinity")`; `NaN`
is represented by `Option.none` at the parse level.  JavaScript truthiness
of numbers (`0`, `NaN` falsy) is modelled explicitly at every `||` and
`if` in the source.
-/

/-! ## JavaScript string and number primitives -/

/-- The JavaScript `\s` / `String.prototype.trim` whitespace set
(ASCII whitespace plus the Unicode space separators, line separators,
BOM). -/
def jsIsWhitespace (c : Char) : Bool :=
  c = ' ' ∨ c = '\t' ∨ c = '\n' ∨ c.toNat = 11 ∨ c.toNat = 12 ∨ c = '\r' ∨
  c.toNat = 0xa0 ∨ c.toNat = 0x1680 ∨
  (0x2000 ≤ c.toNat ∧ c.toNat ≤ 0x200a) ∨
  c.toNat = 0x2028 ∨ c.toNat = 0x2029 ∨ c.toNat = 0x202f ∨
  c.toNat = 0x205f ∨ c.toNat = 0x3000 ∨ c.toNat = 0xfeff

/-- JavaScript `String.prototype.trim`. -/
def jsTrim (s : String) : String :=
  String.mk (((s.data.dropWhile jsIsWhitespace).reverse.dropWhile jsIsWhitespace).reverse)

/-- ASCII decimal digit (JavaScript `\d`). -/
def jsIsDigit (c : Char) : Bool := '0' ≤ c ∧ c ≤ '9'

/-- Numeric value of a list of decimal digits (most significant first). -/
def decDigitsVal (ds : List Char) : Nat :=
  ds.foldl (fun acc c => 10 * acc + (c.toNat - 48)) 0

/-- Hexadecimal digit for JavaScript `parseInt` with a `0x` prefix. -/
def jsIsHexDigit (c : Char) : Bool :=
  ('0' ≤ c ∧ c ≤ '9') ∨ ('a' ≤ c ∧ c ≤ 'f') ∨ ('A' ≤ c ∧ c ≤ 'F')

/-- Value of one hexadecimal digit character. -/
def hexDigitVal (c : Char) : Nat :=
  if '0' ≤ c ∧ c ≤ '9' then c.toNat - 48
  else if 'a' ≤ c ∧ c ≤ 'f' then c.toNat - 87
  else c.toNat - 55

/-- Numeric value of a list of hexadecimal digits (most significant first). -/
def hexDigitsVal (ds : List Char) : Nat :=
  ds.foldl (fun acc c => 16 * acc + hexDigitVal c) 0

/-- Optional leading sign; returns the sign as an integer and the rest. -/
def readSign : List Char → Int × List Char
  | '+' :: r => (1, r)
  | '-' :: r => (-1, r)
  | cs => (1, cs)

/-- ECMAScript `parseInt(s)` with the radix argument omitted: skip leading
whitespace, optional sign, then either a `0x`/`0X`-prefixed run of hex
digits or a run of decimal digits; `none` models `NaN` (no digits). -/
def jsParseInt (s : String) : Option Int :=
  let cs := s.data.dropWhile jsIsWhitespace
  let (sgn, cs1) := readSign cs
  match cs1 with
  | '0' :: c :: rest =>
      if c = 'x' ∨ c = 'X' then
        let ds := rest.takeWhile jsIsHexDigit
        if ds = [] then none else some (sgn * (hexDigitsVal ds : Int))
      else
        let ds := cs1.takeWhile jsIsDigit
        some (sgn * (decDigitsVal ds : Int))
  | _ =>
      let ds := cs1.takeWhile jsIsDigit
      if ds = [] then none else some (sgn * (decDigitsVal ds : Int))

/-- A defined (non-`NaN`) JavaScript number as produced by `parseFloat`:
either an exact rational or one of the two infinities. -/
inductive JsFloat where
  | num (q : ℚ)
  | inf (positive : Bool)
deriving DecidableEq, Repr

/-- Exponent part `(e|E)[+-]?digits` of a decimal literal; `0` when absent
(the remainder of the string is irrelevant to the parsed value). -/
def readExponent : List Char → Int
  | c :: rest =>
      if c = 'e' ∨ c = 'E' then
        let (esgn, cs) := readSign rest
        let ds := cs.takeWhile jsIsDigit
        if ds = [] then 0 else esgn * (decDigitsVal ds : Int)
      else 0
  | [] => 0

/-- Assemble the value of a parsed decimal literal:
sign × (integer-part + fraction) × 10^exponent, built as a single
fraction `mantissa·10^e / 10^(fraction length)`. -/
def mkDecimalValue (sgn : Int) (ip fp : List Char) (e : Int) : ℚ :=
  let mantissa : Int := sgn * ((decDigitsVal ip : Int) * 10 ^ fp.length + (decDigitsVal fp : Int))
  if 0 ≤ e then mkRat (mantissa * 10 ^ e.toNat) (10 ^ fp.length)
  else mkRat mantissa (10 ^ fp.length * 10 ^ (-e).toNat)

/-- ECMAScript `parseFloat(s)`: longest valid prefix of
`[sign] (digits [. digits] | . digits) [exponent]` or `[sign]Infinity`;
`none` models `NaN`. -/
def jsParseFloat (s : String) : Option JsFloat :=
  let cs := s.data.dropWhile jsIsWhitespace
  let (sgn, cs1) := readSign cs
  if "Infinity".data.isPrefixOf cs1 then some (JsFloat.inf (sgn = 1))
  else
    let ip := cs1.takeWhile jsIsDigit
    let cs2 := cs1.dropWhile jsIsDigit
    match ip, cs2 with
    | [], '.' :: cs3 =>
        let fp := cs3.takeWhile jsIsDigit
        if fp = [] then none
        else some (JsFloat.num (mkDecimalValue sgn [] fp (readExponent (cs3.dropWhile jsIsDigit))))
    | [], _ => none
    | _, '.' :: cs3 =>
        let fp := cs3.takeWhile jsIsDigit
        some (JsFloat.num (mkDecimalValue sgn ip fp (readExponent (cs3.dropWhile jsIsDigit))))
    | _, _ => some (JsFloat.num (mkDecimalValue sgn ip [] (readExponent cs2)))

/-- `parseFloat(x) || d` where a missing field (`undefined`) also parses to
`NaN`: `NaN` and `±0` are falsy, so they yield the default `d`. -/
def jsFloatOrDefault (o : Option String) (d : ℚ) : JsFloat :=
  match o.bind jsParseFloat with
  | none => JsFloat.num d
  | some (JsFloat.num q) => if q = 0 then JsFloat.num d else JsFloat.num q
  | some (JsFloat.inf b) => JsFloat.inf b

/-- `parseInt(x) || d`: `NaN` and `0` are falsy, so they yield `d`. -/
def jsIntOrDefault (o : Option String) (d : Int) : Int :=
  match o.bind jsParseInt with
  | none => d
  | some n => if n = 0 then d else n

/-! ## Hexadecimal rendering (`Number.prototype.toString(16)`,
`padStart(6, "0")`, `toUpperCase()`) -/

/-- Lowercase hexadecimal digit character, as produced by
`Number.prototype.toString(16)`. -/
def hexChar (d : Nat) : Char :=
  if d < 10 then Char.ofNat (48 + d) else Char.ofNat (87 + d)

/-- Uppercase hexadecimal digit character. -/
def hexCharU (d : Nat) : Char :=
  if d < 10 then Char.ofNat (48 + d) else Char.ofNat (55 + d)

/-- Hexadecimal digits, most significant first, by fuel-bounded division;
the fuel only needs to cover the digit count. -/
def natHexDigitsAux : Nat → Nat → List Char
  | 0, _ => []
  | _, 0 => []
  | fuel + 1, n => natHexDigitsAux fuel (n / 16) ++ [hexChar (n % 16)]

/-- Hexadecimal digits of a natural number, most significant first;
empty for `0` (`n` itself is always enough fuel). -/
def natHexDigits (n : Nat) : List Char := natHexDigitsAux n n

/-- `c.toString(16)` for a JavaScript integer `c` (minimal-length lowercase
digits; a leading `-` for negative values). -/
def intToHexString (c : Int) : String :=
  if c < 0 then "-" ++ String.mk (natHexDigits c.natAbs)
  else if c = 0 then "0"
  else String.mk (natHexDigits c.toNat)

/-- `s.padStart(6, "0")`: left-pad with `'0'` up to length 6 (identity when
already at least 6 characters long). -/
def jsPadStart6 (s : String) : String :=
  String.mk (List.replicate (6 - s.data.length) '0' ++ s.data)

/-- `s.toUpperCase()` restricted to the ASCII range, which is all the
characters a hexadecimal rendering can contain. -/
def jsToUpper (s : String) : String := String.mk (s.data.map Char.toUpper)

/-- `String.prototype.split(",")` (a one-character string separator):
split at every comma; the empty string yields `[""]`. -/
def jsSplitCommaAux : List Char → List Char → List String
  | [], acc => [String.mk acc.reverse]
  | c :: cs, acc =>
      if c = ',' then String.mk acc.reverse :: jsSplitCommaAux cs []
      else jsSplitCommaAux cs (c :: acc)

/-- `s.split(",")`. -/
def jsSplitComma (s : String) : List String := jsSplitCommaAux s.data []

/-! ## Data model of the danmaku service (`danmaku-service.ts`) -/

/-- `RawComment`: one record from `GET /comment/{episodeId}`; `p` packs
`"time,mode,color,source"`, `t` is the fallback time in seconds. -/
structure RawComment where
  cid : Int
  p : String
  m : String
  t : ℚ
deriving DecidableEq, Repr

/-- `DanmakuItem`: the ArtPlayer overlay item produced by the normalizer.
The source type constrains `mode` to `0 | 1 | 2`
(0 = scroll, 1 = top, 2 = bottom). -/
structure DanmakuItem where
  text : String
  time : JsFloat
  color : String
  mode : Nat
deriving DecidableEq, Repr

/-- `convertToDanmakuItem`: positional parse of `comment.p` split on `","`,
with JavaScript `||` defaults (`comment.t`, `1`, `16777215`), the remote
mode convention 1/4/5 mapped to ArtPlayer 0/2/1, and the color rendered as
`"#" + color.toString(16).padStart(6, "0").toUpperCase()`. -/
def convertToDanmakuItem (comment : RawComment) : DanmakuItem :=
  let parts := jsSplitComma comment.p
  let timeFromP := jsFloatOrDefault ((parts.drop 0).head?) comment.t
  let modeFromP := jsIntOrDefault ((parts.drop 1).head?) 1
  let colorFromP := jsIntOrDefault ((parts.drop 2).head?) 16777215
  let artMode : Nat := if modeFromP = 5 then 1 else if modeFromP = 4 then 2 else 0
  let colorHex := "#" ++ jsToUpper (jsPadStart6 (intToHexString colorFromP))
  { text := comment.m, time := timeFromP, color := colorHex, mode := artMode }

/-! ## TitleNormalizer (`extractSearchKeyword`)

The five regex replaces of the source are implemented as hand-rolled
scanners with exact JavaScript regex semantics for these specific
patterns: leftmost match, alternatives tried left to right, greedy
quantifiers.  Every matcher consumes at least one character when it
succeeds, so a fuel of the list length is exactly enough for the global
scan. -/

/-- The separator class `[.\s_-]` appearing before each tag alternative. -/
def isSepChar (c : Char) : Bool := c = '.' ∨ jsIsWhitespace c ∨ c = '_' ∨ c = '-'

/-- Case-insensitive literal match at the head of the input (the pattern is
given in lowercase); returns the remainder on success. -/
def ciLit : List Char → List Char → Option (List Char)
  | [], cs => some cs
  | _ :: _, [] => none
  | p :: ps, c :: cs => if c.toLower = p then ciLit ps cs else none

/-- Greedy `\d+`: at least one digit; returns the digits and the rest. -/
def takeDigits1 (cs : List Char) : Option (List Char × List Char) :=
  let ds := cs.takeWhile jsIsDigit
  if ds = [] then none else some (ds, cs.dropWhile jsIsDigit)

/-- One pass of a JavaScript `replace(re, "")` with the `g` flag:
at each position try the matcher (which returns the remainder after a
successful match); on success the matched characters are dropped and
scanning resumes after them.  `fuel` is the initial length of the list;
matchers always consume at least one character. -/
def globalEraseFuel (m : List Char → Option (List Char)) : Nat → List Char → List Char
  | 0, cs => cs
  | _ + 1, [] => []
  | fuel + 1, c :: cs =>
      match m (c :: cs) with
      | some rest => globalEraseFuel m fuel rest
      | none => c :: globalEraseFuel m fuel cs

/-- `s.replace(re, "")` with the `g` flag, for a matcher anchored at the
current position. -/
def globalErase (m : List Char → Option (List Char)) (cs : List Char) : List Char :=
  globalEraseFuel m cs.length cs

/-- The group `(S\d+E\d+|第\d+[季集话]|EP?\d+|\d+集)` (case-insensitive),
alternatives in source order. -/
def matchSeasonEpisodeAlt (cs : List Char) : Option (List Char) :=
  (do
    let r1 ← ciLit ['s'] cs
    let (_, r2) ← takeDigits1 r1
    let r3 ← ciLit ['e'] r2
    let (_, r4) ← takeDigits1 r3
    some r4) <|>
  (do
    let r1 ← ciLit ['第'] cs
    let (_, r2) ← takeDigits1 r1
    match r2 with
    | c :: rest => if c = '季' ∨ c = '集' ∨ c = '话' then some rest else none
    | [] => none) <|>
  (do
    let r1 ← ciLit ['e'] cs
    match r1 with
    | c :: rest2 =>
        if c.toLower = 'p' then
          (takeDigits1 rest2).map (fun x => x.2)
        else
          (takeDigits1 r1).map (fun x => x.2)
    | [] => none) <|>
  (do
    let (_, r) ← takeDigits1 cs
    match r with
    | '集' :: rest => some rest
    | _ => none)

/-- The group `(1080p|720p|4K|2160p|HDR)` (case-insensitive). -/
def matchResolutionAlt (cs : List Char) : Option (List Char) :=
  ciLit "1080p".data cs <|> ciLit "720p".data cs <|> ciLit "4k".data cs <|>
  ciLit "2160p".data cs <|> ciLit "hdr".data cs

/-- `H\.?265` / `H\.?264`: `h`, a greedily-taken optional dot, then the
digit literal (the no-dot backtrack can never succeed because the literal
starts with a digit, not a dot). -/
def matchHDot (digits : List Char) (cs : List Char) : Option (List Char) :=
  do
    let r1 ← ciLit ['h'] cs
    match r1 with
    | '.' :: rest => ciLit digits rest
    | _ => ciLit digits r1

/-- The group `(HEVC|H\.?265|H\.?264|AAC|DDP|DD5\.1|WEB-DL)`
(case-insensitive), alternatives in source order. -/
def matchCodecAlt (cs : List Char) : Option (List Char) :=
  ciLit "hevc".data cs <|> matchHDot "265".data cs <|> matchHDot "264".data cs <|>
  ciLit "aac".data cs <|> ciLit "ddp".data cs <|> ciLit "dd5.1".data cs <|>
  ciLit "web-dl".data cs

/-- Opening bracket class `[\[(（]` of the year pattern. -/
def isOpenBracket (c : Char) : Bool := c = '[' ∨ c = '(' ∨ c = '（'

/-- Closing bracket class `[\])）]` of the year pattern. -/
def isCloseBracket (c : Char) : Bool := c = ']' ∨ c = ')' ∨ c = '）'

/-- `\d{4}`: exactly four digits. -/
def takeExactly4Digits : List Char → Option (List Char)
  | a :: b :: c :: d :: rest =>
      if jsIsDigit a ∧ jsIsDigit b ∧ jsIsDigit c ∧ jsIsDigit d then some rest else none
  | _ => none

/-- The year pattern `[\[(（]?\d{4}[\])）]?`: an optional opening bracket
(whose backtrack cannot succeed, a bracket not being a digit), four
digits, an optional closing bracket. -/
def matchYear (cs : List Char) : Option (List Char) :=
  let go (cs2 : List Char) : Option (List Char) :=
    (takeExactly4Digits cs2).map (fun r =>
      match r with
      | c :: rest => if isCloseBracket c then rest else c :: rest
      | [] => [])
  match cs with
  | c :: rest => if isOpenBracket c then go rest else go cs
  | [] => none

/-- A tag matcher preceded by `[.\s_-]*`: the separator run is disjoint
from every alternative's first character, so the greedy run never
backtracks. -/
def sepThen (alt : List Char → Option (List Char)) (cs : List Char) : Option (List Char) :=
  alt (cs.dropWhile isSepChar)

/-- The punctuation class `[._\[\]【】()（）]` replaced by a space. -/
def isSpecialPunct (c : Char) : Bool :=
  c = '.' ∨ c = '_' ∨ c = '[' ∨ c = ']' ∨ c = '【' ∨ c = '】' ∨
  c = '(' ∨ c = ')' ∨ c = '（' ∨ c = '）'

/-- `replace(/\s+/g, " ")`: collapse every whitespace run to one space. -/
def collapseWsAux : Bool → List Char → List Char
  | _, [] => []
  | prevWs, c :: cs =>
      if jsIsWhitespace c then
        if prevWs then collapseWsAux true cs else ' ' :: collapseWsAux true cs
      else c :: collapseWsAux false cs

/-- The known container extensions of the first replace, lowercase. -/
def knownExtensions : List String := ["mp4", "mkv", "avi", "wmv", "flv", "m3u8", "ts"]

/-- `replace(/\.(mp4|mkv|avi|wmv|flv|m3u8|ts)$/i, "")`: drop one
case-insensitive known container extension from the end of the string. -/
def dropContainerExtension (s : String) : String :=
  let lower := s.data.map Char.toLower
  match knownExtensions.find? (fun ext => List.isSuffixOf ('.' :: ext.data) lower) with
  | some ext => String.mk (s.data.take (s.data.length - (ext.data.length + 1)))
  | none => s

/-- `extractSearchKeyword`: the sequential strip pipeline of the source
(`if (!title) return ""` guard, then extension, season/episode tags,
resolution tags, codec tags, years, punctuation to spaces, whitespace
collapse, trim). -/
def extractSearchKeyword (title : String) : String :=
  if title = "" then ""
  else
    let k1 := dropContainerExtension title
    let k2 := globalErase (sepThen matchSeasonEpisodeAlt) k1.data
    let k3 := globalErase (sepThen matchResolutionAlt) k2
    let k4 := globalErase (sepThen matchCodecAlt) k3
    let k5 := globalErase matchYear k4
    let k6 := k5.map (fun c => if isSpecialPunct c then ' ' else c)
    jsTrim (String.mk (collapseWsAux false k6))

/-! ## Episode-number token extraction in `autoLoadDanmaku` -/

/-- `String.prototype.match` without the `g` flag: return the first
successful anchored match, scanning positions left to right. -/
def scanFirst {α : Type} (m : List Char → Option α) : List Char → Option α
  | [] => none
  | c :: cs =>
      match m (c :: cs) with
      | some a => some a
      | none => scanFirst m cs

/-- Anchored `/(?:E|EP|第)(\d+)(?:集|话)?/i`, returning the digits of the
first capture group.  The `E` alternative is tried before `EP`, and the
optional trailing `集|话` does not affect the capture. -/
def episodeTokenAt1 (cs : List Char) : Option (List Char) :=
  match cs with
  | c :: rest =>
      if c.toLower = 'e' then
        match takeDigits1 rest with
        | some (ds, _) => some ds
        | none =>
            match rest with
            | p :: rest2 =>
                if p.toLower = 'p' then (takeDigits1 rest2).map (fun x => x.1) else none
            | [] => none
      else if c = '第' then (takeDigits1 rest).map (fun x => x.1)
      else none
  | [] => none

/-- Anchored `/S\d+E(\d+)/i`, returning the digits of the capture group. -/
def episodeTokenAt2 (cs : List Char) : Option (List Char) :=
  match cs with
  | c :: rest =>
      if c.toLower = 's' then
        match takeDigits1 rest with
        | some (_, r2) =>
            match r2 with
            | e :: r3 => if e.toLower = 'e' then (takeDigits1 r3).map (fun x => x.1) else none
            | [] => none
        | none => none
      else none
  | [] => none

/-- `videoTitle.match(/(?:E|EP|第)(\d+)(?:集|话)?/i) ||
videoTitle.match(/S\d+E(\d+)/i)`: the episode-number token of the title,
as the captured digit string. -/
def findEpisodeToken (title : String) : Option String :=
  ((scanFirst episodeTokenAt1 title.data) <|> (scanFirst episodeTokenAt2 title.data)).map
    String.mk

/-! ## Catalog data model and HTTP client -/

/-- `Anime`: one entry of a search response. -/
structure Anime where
  animeId : Int
  bangumiId : String
  animeTitle : String
  episodeCount : Int
  rating : ℚ
deriving DecidableEq, Repr

/-- `Episode`: one entry of a series detail; `episodeNumber` is a string
and may be non-numeric. -/
structure Episode where
  seasonId : String
  episodeId : Int
  episodeTitle : String
  episodeNumber : String
  airDate : String
deriving DecidableEq, Repr

/-- `Bangumi`: the series detail with its ordered episode list. -/
structure Bangumi where
  animeId : Int
  bangumiId : String
  animeTitle : String
  isOnAir : Bool
  episodes : List Episode
deriving DecidableEq, Repr

/-- Body of `GET /search/anime`; `animes` is `none` when the JSON field is
absent/null (an empty array is still truthy in JavaScript). -/
structure SearchAnimeResponse where
  errorCode : Int
  success : Bool
  errorMessage : String
  animes : Option (List Anime)
deriving DecidableEq, Repr

/-- Body of `GET /bangumi/{id}`. -/
structure BangumiResponse where
  errorCode : Int
  success : Bool
  errorMessage : String
  bangumi : Option Bangumi
deriving DecidableEq, Repr

/-- Body of `GET /comment/{episodeId}`. -/
structure CommentResponse where
  count : Int
  comments : Option (List RawComment)
deriving DecidableEq, Repr

/-- Body of `POST /match`; the optional fields are absent when the server
reports no match. -/
structure MatchResponse where
  errorCode : Int
  success : Bool
  errorMessage : String
  isMatched : Bool
  animeId : Option Int
  episodeId : Option Int
  animeTitle : Option String
  episodeTitle : Option String
deriving DecidableEq, Repr

/-- Outcome of one `fetch` as observed by the client code: a thrown
network/parse error, a non-2xx response, or a parsed body. -/
inductive FetchOutcome (β : Type) where
  | throwsErr
  | httpError (status : Nat)
  | ok (body : β)
deriving DecidableEq, Repr

/-- The remote comment API, one function per endpoint; quantifying over
this structure models every possible sequence of network responses. -/
structure DanmakuApi where
  matchResp : String → FetchOutcome MatchResponse
  searchResp : String → FetchOutcome SearchAnimeResponse
  bangumiResp : Int → FetchOutcome BangumiResponse
  commentResp : Int → FetchOutcome CommentResponse

/-- `searchAnime`: empty/whitespace keyword short-circuits to `[]`; any
fetch failure or unsuccessful body degrades to `[]`. -/
def searchAnime (api : DanmakuApi) (keyword : String) : List Anime :=
  if keyword = "" ∨ jsTrim keyword = "" then []
  else
    match api.searchResp keyword with
    | FetchOutcome.ok data =>
        if data.success then
          match data.animes with
          | some l => l
          | none => []
        else []
    | _ => []

/-- `getBangumi`: any fetch failure or unsuccessful body degrades to
`null`. -/
def getBangumi (api : DanmakuApi) (animeId : Int) : Option Bangumi :=
  match api.bangumiResp animeId with
  | FetchOutcome.ok data => if data.success then data.bangumi else none
  | _ => none

/-- `getComments`: a non-empty comment array is normalized through
`convertToDanmakuItem`; everything else degrades to `[]`. -/
def getComments (api : DanmakuApi) (episodeId : Int) : List DanmakuItem :=
  match api.commentResp episodeId with
  | FetchOutcome.ok data =>
      match data.comments with
      | some l => if l.length > 0 then l.map convertToDanmakuItem else []
      | none => []
  | _ => []

/-- `matchAnime`: the parsed body on success, `null` on any failure. -/
def matchAnime (api : DanmakuApi) (fileName : String) : Option MatchResponse :=
  match api.matchResp fileName with
  | FetchOutcome.ok data => some data
  | _ => none

/-! ## `autoLoadDanmaku` -/

/-- `AutoLoadResult`: the terminal result of the auto-load chain. -/
structure AutoLoadResult where
  success : Bool
  danmaku : List DanmakuItem
  matchedTitle : Option String
  episodeTitle : Option String
  message : String
deriving DecidableEq, Repr

/-- The immediate failure for an empty/whitespace title. -/
def emptyTitleResult : AutoLoadResult :=
  ⟨false, [], none, none, "视频标题为空"⟩

/-- The terminal failure when the whole chain finds nothing. -/
def noMatchResult : AutoLoadResult :=
  ⟨false, [], none, none, "未找到匹配的弹幕，请手动搜索"⟩

/-- The message of the outer `catch` branch of `autoLoadDanmaku`.  It is
unreachable: every catalog helper already absorbs its own failures, so
nothing in the `try` body ever throws. -/
def autoLoadFailedMessage : String := "自动加载失败，请手动搜索"

/-- JavaScript truthiness of `matchResult.episodeId` (a number field:
`undefined`, `NaN` and `0` are falsy). -/
def truthyOptInt : Option Int → Bool
  | some n => n != 0
  | none => false

/-- The auto-match branch of `autoLoadDanmaku`: `some` result when the
server reported a usable match (the episode comments are fetched and the
match/no-comment results built), `none` when the code falls through to
the search branch. -/
def autoMatchStep (api : DanmakuApi) (videoTitle : String) : Option AutoLoadResult :=
  match matchAnime api videoTitle with
  | some mr =>
      if mr.success && mr.isMatched && truthyOptInt mr.episodeId then
        match mr.episodeId with
        | some eid =>
            let danmaku := getComments api eid
            if danmaku.length > 0 then
              some ⟨true, danmaku, mr.animeTitle, mr.episodeTitle,
                "已加载 " ++ toString danmaku.length ++ " 条弹幕"⟩
            else
              some ⟨false, [], mr.animeTitle, mr.episodeTitle, "匹配成功但该剧集暂无弹幕"⟩
        | none => none
      else none
  | none => none

/-- `parseInt(ep.episodeNumber) === episodeNum`: strict equality, false
whenever either side is `NaN`. -/
def episodeNumberMatches (episodeNum : Option Int) (ep : Episode) : Bool :=
  match jsParseInt ep.episodeNumber, episodeNum with
  | some a, some b => a == b
  | _, _ => false

/-- Episode selection of the search branch: default to the first episode;
if the title carries an episode-number token, prefer the first episode
whose numeric `episodeNumber` equals it. -/
def selectTargetEpisode (videoTitle : String) (firstEp : Episode)
    (episodes : List Episode) : Episode :=
  match findEpisodeToken videoTitle with
  | none => firstEp
  | some tok =>
      let episodeNum := jsParseInt tok
      match episodes.find? (episodeNumberMatches episodeNum) with
      | some found => found
      | none => firstEp

/-- The search-fallback branch of `autoLoadDanmaku` (keyword extraction,
first search hit, series detail, episode selection, comment fetch), with
every miss falling through to `noMatchResult`. -/
def searchFallbackStep (api : DanmakuApi) (videoTitle : String) : AutoLoadResult :=
  let keyword := extractSearchKeyword videoTitle
  if keyword ≠ "" then
    match searchAnime api keyword with
    | a :: _ =>
        match getBangumi api a.animeId with
        | some bangumi =>
            match bangumi.episodes with
            | e0 :: _ =>
                let targetEpisode := selectTargetEpisode videoTitle e0 bangumi.episodes
                let danmaku := getComments api targetEpisode.episodeId
                if danmaku.length > 0 then
                  ⟨true, danmaku, some a.animeTitle, some targetEpisode.episodeTitle,
                    "已加载 " ++ toString danmaku.length ++ " 条弹幕 (搜索匹配)"⟩
                else noMatchResult
            | [] => noMatchResult
        | none => noMatchResult
    | [] => noMatchResult
  else noMatchResult

/-- `autoLoadDanmaku`: the full chain.  The `try/catch` of the source
never reaches its `catch` (message `autoLoadFailedMessage`) because the
catalog helpers are total; the function is total by construction and
never throws to its caller. -/
def autoLoadDanmaku (api : DanmakuApi) (videoTitle : String) : AutoLoadResult :=
  if videoTitle = "" ∨ jsTrim videoTitle = "" then emptyTitleResult
  else
    match autoMatchStep api videoTitle with
    | some r => r
    | none => searchFallbackStep api videoTitle

/-! ## `LocalHlsPlayer` error handling state machine -/

/-- `ErrorType` of `PlayerError` (`@/lib/player/types`), as used by
`setPlayerError` call sites. -/
inductive ErrorType where
  | key | manifest | fragment | network | media | unknown
deriving DecidableEq, Repr

/-- `PlayerError`: the error surfaced to the error display. -/
structure PlayerError where
  type : ErrorType
  message : String
  canRetry : Bool
deriving DecidableEq, Repr

/-- The `playMode` state values. -/
inductive PlayMode where
  | direct | proxy | detecting
deriving DecidableEq, Repr

/-- The mutable component state touched by the error handler, the retry
handler and the init effect: the three retry-counter refs, the transport
selection, the retry-effect trigger and the error/loading state. -/
structure PlayerState where
  keyErrorCount : Nat
  networkRetryCount : Nat
  mediaRetryCount : Nat
  useDirectPlay : Bool
  playMode : PlayMode
  retryCount : Nat
  error : Option PlayerError
  isLoading : Bool
deriving DecidableEq, Repr

/-- Commands issued to the HLS engine and timer set by the error handler. -/
inductive HlsCommand where
  | stopLoad
  | scheduleStartLoad (delayMs : Nat)
  | scheduleRecoverMediaError (delayMs : Nat)
deriving DecidableEq, Repr

/-- `data.type` of an HLS error event. -/
inductive HlsErrorKind where
  | networkError | mediaError | otherError
deriving DecidableEq, Repr

/-- An HLS error event as consumed by `handleHlsError`:
`responseCode` models `data.response?.code` (`none` when the response or
its code is absent; hls.js reports `0` for requests that died without an
HTTP status, e.g. CORS-blocked ones, and `0` is falsy in the source's
`!statusCode` test). -/
structure HlsErrorData where
  details : String
  fatal : Bool
  kind : HlsErrorKind
  responseCode : Option Int
deriving DecidableEq, Repr

/-- JavaScript truthiness of `data.response?.code`: a present, non-zero
status. -/
def jsTruthyCode : Option Int → Bool
  | some n => n != 0
  | none => false

/-- `MAX_NETWORK_RETRY` constant of the component. -/
def MAX_NETWORK_RETRY : Nat := 3
/-- `MAX_MEDIA_RETRY` constant of the component. -/
def MAX_MEDIA_RETRY : Nat := 2
/-- `MAX_KEY_ERROR` constant of the component. -/
def MAX_KEY_ERROR : Nat := 5

/-- `setPlayerError(type, message, canRetry)`: record the error and stop
the loading indicator. -/
def setPlayerError (t : ErrorType) (message : String) (canRetry : Bool)
    (s : PlayerState) : PlayerState :=
  { s with error := some ⟨t, message, canRetry⟩, isLoading := false }

/-- `handleHlsError`: the branch-for-branch embedding of the component's
HLS error handler.  Returns the updated state and the engine/timer
commands issued. -/
def handleHlsError (data : HlsErrorData) (s : PlayerState) :
    PlayerState × List HlsCommand :=
  if data.details = "keyLoadError" ∨ data.details = "keyLoadTimeOut" then
    let k := s.keyErrorCount + 1
    let s1 := { s with keyErrorCount := k }
    if k > MAX_KEY_ERROR then
      let errorMsg :=
        if data.responseCode = some 404 then "视频加密密钥不存在（404），无法播放此视频"
        else "视频加密密钥加载失败，无法播放"
      (setPlayerError ErrorType.key errorMsg false s1, [HlsCommand.stopLoad])
    else (s1, [])
  else if data.details = "manifestLoadError" then
    let is404 := data.responseCode = some 404
    let is403 := data.responseCode = some 403
    if s.useDirectPlay ∧ ¬is404 ∧ ¬is403 ∧ jsTruthyCode data.responseCode = false then
      ({ s with useDirectPlay := false, playMode := PlayMode.proxy,
                retryCount := s.retryCount + 1 }, [])
    else if is404 then
      (setPlayerError ErrorType.manifest "视频文件不存在（404）" false s, [])
    else if is403 then
      (setPlayerError ErrorType.manifest "视频链接已过期或无效（403），请返回重新选择" false s, [])
    else
      match data.responseCode with
      | some n =>
          if n ≠ 0 then
            (setPlayerError ErrorType.manifest
              ("视频清单加载失败 (HTTP " ++ toString n ++ ")") true s, [])
          else (setPlayerError ErrorType.manifest "视频清单加载失败，请检查网络连接" true s, [])
      | none => (setPlayerError ErrorType.manifest "视频清单加载失败，请检查网络连接" true s, [])
  else if data.details = "fragLoadError" ∧ data.responseCode = some 404 then
    (setPlayerError ErrorType.fragment "视频片段不存在（404），该视频可能已损坏" false s, [])
  else if data.fatal then
    match data.kind with
    | HlsErrorKind.networkError =>
        let n := s.networkRetryCount + 1
        let s1 := { s with networkRetryCount := n }
        if n > MAX_NETWORK_RETRY then
          let errorMsg :=
            if data.responseCode = some 404 then "视频资源不存在（404）"
            else "网络连接失败，请检查网络连接"
          (setPlayerError ErrorType.network errorMsg true s1, [HlsCommand.stopLoad])
        else (s1, [HlsCommand.scheduleStartLoad (1000 * n)])
    | HlsErrorKind.mediaError =>
        let m := s.mediaRetryCount + 1
        let s1 := { s with mediaRetryCount := m }
        if m > MAX_MEDIA_RETRY then
          (setPlayerError ErrorType.media "视频格式错误或编码不支持" false s1, [HlsCommand.stopLoad])
        else (s1, [HlsCommand.scheduleRecoverMediaError 500])
    | HlsErrorKind.otherError =>
        (setPlayerError ErrorType.unknown
          ("视频加载失败: " ++ (if data.details = "" then "未知错误" else data.details))
          true s, [])
  else (s, [])

/-- The manifest error message and retryability as a function of the event
alone, read off the non-switch branches of the manifest case. -/
def manifestErrorSpec (d : HlsErrorData) : String × Bool :=
  if d.responseCode = some 404 then ("视频文件不存在（404）", false)
  else if d.responseCode = some 403 then ("视频链接已过期或无效（403），请返回重新选择", false)
  else
    match d.responseCode with
    | some n =>
        if n ≠ 0 then ("视频清单加载失败 (HTTP " ++ toString n ++ ")", true)
        else ("视频清单加载失败，请检查网络连接", true)
    | none => ("视频清单加载失败，请检查网络连接", true)

/-- `handleRetry`: the explicit user retry — clear the error, re-enter
loading, bump the retry generation and zero all three counters. -/
def handleRetry (s : PlayerState) : PlayerState :=
  { s with error := none, isLoading := true, retryCount := s.retryCount + 1,
           networkRetryCount := 0, mediaRetryCount := 0, keyErrorCount := 0 }

/-- Result of `checkCorsSupport` (the reachability probe). -/
structure CorsCheckResult where
  success : Bool
  reason : Option String
  code : Option Int
deriving DecidableEq, Repr

/-- The CORS-probe stage of `initPlayer`: sets `playMode` from the current
transport; when attempting direct play, a probe failure with the `"cors"`
verdict switches to proxy, bumps the retry trigger and returns before any
engine is created.  The returned `Bool` is whether initialization
proceeds to engine creation. -/
def initPlayerProbe (res : CorsCheckResult) (s : PlayerState) : PlayerState × Bool :=
  let s0 := { s with playMode := if s.useDirectPlay then PlayMode.direct else PlayMode.proxy }
  if s0.useDirectPlay then
    if ¬res.success then
      if res.reason = some "cors" then
        ({ s0 with useDirectPlay := false, playMode := PlayMode.proxy,
                   retryCount := s0.retryCount + 1 }, false)
      else (s0, true)
    else (s0, true)
  else (s0, true)

/-- The discrete events that mutate `PlayerState` within one mounted
component. -/
inductive PlayerEvent where
  | probe (res : CorsCheckResult)
  | hlsErr (data : HlsErrorData)
  | retry
deriving Repr

/-- One step of the playback supervisor: dispatch an event to the handler
that consumes it. -/
def playerStep (e : PlayerEvent) (s : PlayerState) : PlayerState :=
  match e with
  | PlayerEvent.probe res => (initPlayerProbe res s).1
  | PlayerEvent.hlsErr data => (handleHlsError data s).1
  | PlayerEvent.retry => handleRetry s

/-- A run of the supervisor over a sequence of events. -/
def playerRun (s : PlayerState) (events : List PlayerEvent) : PlayerState :=
  events.foldl (fun st e => playerStep e st) s

/-- The `i`-th comma-separated field of `comment.p` (`none` models the
`undefined` produced by indexing past the end of the split array). -/
def packedField (comment : RawComment) (i : Nat) : Option String :=
  ((jsSplitComma comment.p).drop i).head?

/-- Fixture: episode 1 of the sample series detail. -/
def sampleEpisode1 : Episode := ⟨"s1", 101, "first", "1", ""⟩
/-- Fixture: episode 7 of the sample series detail. -/
def sampleEpisode7 : Episode := ⟨"s1", 107, "seventh", "7", ""⟩
/-- Fixture: the sample search hit. -/
def sampleAnime : Anime := ⟨42, "b42", "Some Show", 12, 8⟩
/-- Fixture: the sample series detail. -/
def sampleBangumi : Bangumi := ⟨42, "b42", "Some Show", false, [sampleEpisode1, sampleEpisode7]⟩
/-- Fixture: an API whose auto-match endpoint fails but whose search,
detail and comment endpoints respond. -/
def searchOnlyApi : DanmakuApi :=
  ⟨fun _ => FetchOutcome.throwsErr,
   fun _ => FetchOutcome.ok ⟨0, true, "", some [sampleAnime]⟩,
   fun _ => FetchOutcome.ok ⟨0, true, "", some sampleBangumi⟩,
   fun _ => FetchOutcome.ok ⟨1, some [⟨1, "3,1,255,[x]", "hello", 0⟩]⟩⟩

/-! ## Correctness of the hexadecimal color rendering -/

/-- Fixed-width big-endian hexadecimal digits of `n`:
digit `i` is `n / 16^(k-1-i) mod 16`. -/
def hexDigitsSpec (k n : Nat) : List Char :=
  (List.range k).map (fun i => hexChar (n / 16 ^ (k - 1 - i) % 16))

/-- The color string specified by the documentation: `#` followed by the
six-digit zero-padded uppercase base-16 rendering of `n`. -/
def specColorHex (n : Nat) : String :=
  String.mk ('#' :: (List.range 6).map (fun i => hexCharU (n / 16 ^ (5 - i) % 16)))

theorem natHexDigitsAux_fuel_irrel :
    ∀ f1 f2 n : Nat, n ≤ f1 → n ≤ f2 → natHexDigitsAux f1 n = natHexDigitsAux f2 n := by
  intro f1
  induction f1 with
  | zero =>
      intro f2 n h1 _
      interval_cases n
      cases f2 <;> rfl
  | succ f ih =>
      intro f2 n h1 h2
      match n, f2 with
      | 0, 0 => rfl
      | 0, _ + 1 => rfl
      | m + 1, f2' + 1 =>
          have hq : (m + 1) / 16 < m + 1 :=
            Nat.div_lt_self (Nat.succ_pos m) (by omega)
          have e1 : natHexDigitsAux f ((m + 1) / 16) = natHexDigitsAux f2' ((m + 1) / 16) :=
            ih f2' ((m + 1) / 16) (by omega) (by omega)
          show natHexDigitsAux f ((m + 1) / 16) ++ _ = natHexDigitsAux f2' ((m + 1) / 16) ++ _
          rw [e1]

theorem natHexDigits_pos (n : Nat) (h : 0 < n) :
    natHexDigits n = natHexDigits (n / 16) ++ [hexChar (n % 16)] := by
  match n, h with
  | m + 1, _ =>
      show natHexDigitsAux m ((m + 1) / 16) ++ _ = natHexDigitsAux ((m + 1) / 16) ((m + 1) / 16) ++ _
      rw [natHexDigitsAux_fuel_irrel m ((m + 1) / 16) ((m + 1) / 16) _ le_rfl]
      have := Nat.div_lt_self (Nat.succ_pos m) (show 1 < 16 by omega)
      omega

theorem natHexDigits_length_le : ∀ k n : Nat, n < 16 ^ k → (natHexDigits n).length ≤ k := by
  intro k
  induction k with
  | zero =>
      intro n h
      interval_cases n
      exact le_rfl
  | succ k ih =>
      intro n h
      rcases Nat.eq_zero_or_pos n with h0 | h0
      · subst h0; simp [natHexDigits, natHexDigitsAux]
      · rw [natHexDigits_pos n h0]
        have hd : n / 16 < 16 ^ k := by
          rw [Nat.div_lt_iff_lt_mul (by omega : 0 < 16)]
          calc n < 16 ^ (k + 1) := h
          _ = 16 ^ k * 16 := by ring
        have := ih (n / 16) hd
        simp only [List.length_append, List.length_cons, List.length_nil]
        omega

theorem natHexDigits_padded_eq_spec :
    ∀ k n : Nat, n < 16 ^ k →
      List.replicate (k - (natHexDigits n).length) '0' ++ natHexDigits n = hexDigitsSpec k n := by
  intro k
  induction k with
  | zero =>
      intro n h
      interval_cases n
      rfl
  | succ k ih =>
      intro n h
      rcases Nat.eq_zero_or_pos n with h0 | h0
      · subst h0
        have hz : natHexDigits 0 = [] := rfl
        rw [hz]
        simp only [List.length_nil, Nat.sub_zero, List.append_nil, hexDigitsSpec,
          Nat.zero_div, Nat.zero_mod]
        rw [List.map_const' (List.range (k + 1)) (hexChar 0), List.length_range]
        rfl
      · have hd : n / 16 < 16 ^ k := by
          rw [Nat.div_lt_iff_lt_mul (by omega : 0 < 16)]
          calc n < 16 ^ (k + 1) := h
          _ = 16 ^ k * 16 := by ring
        have hlen : (natHexDigits (n / 16)).length ≤ k := natHexDigits_length_le k (n / 16) hd
        rw [natHexDigits_pos n h0]
        have hsub : k + 1 - ((natHexDigits (n / 16)).length + 1) =
            k - (natHexDigits (n / 16)).length := by omega
        simp only [List.length_append, List.length_cons, List.length_nil, hsub]
        rw [← List.append_assoc, ih (n / 16) hd]
        show hexDigitsSpec k (n / 16) ++ [hexChar (n % 16)] = hexDigitsSpec (k + 1) n
        unfold hexDigitsSpec
        rw [List.range_succ, List.map_append]
        congr 1
        · apply List.map_congr_left
          intro i hi
          have hik : i < k := List.mem_range.mp hi
          have hexp : k - i = (k - 1 - i) + 1 := by omega
          have h16 : (16 : Nat) * 16 ^ (k - 1 - i) = 16 ^ (k - i) := by
            rw [hexp, pow_succ]
            ring
          rw [Nat.div_div_eq_div_mul, h16]
          have : k + 1 - 1 - i = k - i := by omega
          rw [this]
        · simp

theorem hexChar_toUpper : ∀ d : Nat, d < 16 → Char.toUpper (hexChar d) = hexCharU d := by decide

/-! ## Claim theorems: the comment normalizer -/

theorem convertToDanmakuItem_color_eq (c : RawComment) (n : Nat)
    (hn : (packedField c 2).bind jsParseInt = some (n : Int)) (h0 : 0 < n)
    (hb : n ≤ 16777215) :
    (convertToDanmakuItem c).color = specColorHex n := by
  have hne : (n : Int) ≠ 0 := by exact_mod_cast Nat.pos_iff_ne_zero.mp h0
  have hcolor : (convertToDanmakuItem c).color =
      "#" ++ jsToUpper (jsPadStart6 (intToHexString (jsIntOrDefault (packedField c 2) 16777215))) := rfl
  rw [hcolor]
  have hval : jsIntOrDefault (packedField c 2) 16777215 = (n : Int) := by
    unfold jsIntOrDefault
    rw [show (packedField c 2).bind jsParseInt = some (n : Int) from hn]
    simp [hne]
  rw [hval]
  have hhex : intToHexString (n : Int) = String.mk (natHexDigits n) := by
    unfold intToHexString
    have h1 : ¬ ((n : Int) < 0) := by omega
    have h2 : (n : Int) ≠ 0 := hne
    simp only [h1, if_false, h2, if_false]
    rfl
  rw [hhex]
  have hlt : n < 16 ^ 6 := by omega
  unfold jsPadStart6 jsToUpper
  show "#" ++ String.mk ((List.replicate (6 - (natHexDigits n).length) '0' ++ natHexDigits n).map
    Char.toUpper) = specColorHex n
  rw [natHexDigits_padded_eq_spec 6 n hlt]
  unfold specColorHex hexDigitsSpec
  rw [List.map_map]
  have : (List.range 6).map (Char.toUpper ∘ fun i => hexChar (n / 16 ^ (6 - 1 - i) % 16)) =
      (List.range 6).map (fun i => hexCharU (n / 16 ^ (5 - i) % 16)) := by
    apply List.map_congr_left
    intro i _
    show Char.toUpper (hexChar (n / 16 ^ (6 - 1 - i) % 16)) = hexCharU (n / 16 ^ (5 - i) % 16)
    rw [hexChar_toUpper (n / 16 ^ (6 - 1 - i) % 16) (by omega)]
  rw [this]
  rfl

/-- Helper: a packed color field parsing to `0` (falsy) makes the color
default to white `16777215`, rendered `"#FFFFFF"`. -/
theorem convert_color_of_zero (c : RawComment)
    (h : (packedField c 2).bind jsParseInt = some 0) :
    (convertToDanmakuItem c).color = "#FFFFFF" := by
  have hval : jsIntOrDefault (packedField c 2) 16777215 = 16777215 := by
    unfold jsIntOrDefault
    rw [h]
    simp
  have hcolor : (convertToDanmakuItem c).color =
      "#" ++ jsToUpper (jsPadStart6 (intToHexString (jsIntOrDefault (packedField c 2) 16777215))) := rfl
  rw [hcolor, hval]
  decide

/-- C3 (corrected): the color is the `#`-prefixed six-digit zero-padded
uppercase hexadecimal rendering of the parsed colorCode for positive
codes up to `0xFFFFFF`; but a parsed colorCode of `0` is falsy in the
`parseInt(parts[2]) || 16777215` default and falls back to white, so
colorCode `0` yields `"#FFFFFF"`, not `"#000000"`; colorCode `16777215`
yields `"#FFFFFF"`. -/
theorem convert_color_rendering_amended (c : RawComment) :
    (∀ n : Nat, (packedField c 2).bind jsParseInt = some (n : Int) →
      0 < n → n ≤ 16777215 → (convertToDanmakuItem c).color = specColorHex n) ∧
    ((packedField c 2).bind jsParseInt = some 0 →
      (convertToDanmakuItem c).color = "#FFFFFF") ∧
    specColorHex 16777215 = "#FFFFFF" := by
  refine ⟨?_, convert_color_of_zero c, by decide⟩
  intro n hn h0 hb
  exact convertToDanmakuItem_color_eq c n hn h0 hb

/-- Witness for C3's amended theorem: colorCode `255` renders as
`"#0000FF"`, colorCode `16777215` as `"#FFFFFF"` and colorCode `0` falls
back to `"#FFFFFF"`. -/
theorem convert_color_rendering_amended_witness :
    (convertToDanmakuItem ⟨1, "1,1,255,[a]", "m", 2⟩).color = specColorHex 255 ∧
    specColorHex 255 = "#0000FF" ∧
    (convertToDanmakuItem ⟨1, "1,1,16777215,[a]", "m", 2⟩).color = specColorHex 16777215 ∧
    specColorHex 16777215 = "#FFFFFF" ∧
    (convertToDanmakuItem ⟨1, "10,1,0,[a]", "m", 2⟩).color = "#FFFFFF" :=
  ⟨(convert_color_rendering_amended ⟨1, "1,1,255,[a]", "m", 2⟩).1 255 (by decide)
      (by decide) (by decide),
   by decide,
   (convert_color_rendering_amended ⟨1, "1,1,16777215,[a]", "m", 2⟩).1 16777215 (by decide)
      (by decide) (by decide),
   by decide,
   (convert_color_rendering_amended ⟨1, "10,1,0,[a]", "m", 2⟩).2.1 (by decide)⟩

/-- C3 counterexample: a raw comment whose packed colorCode parses to `0`
is rendered `"#FFFFFF"`, not the `"#000000"` the claim requires. -/
theorem convert_color_zero_cex :
    (packedField ⟨1, "10,1,0,[a]", "m", 2⟩ 2).bind jsParseInt = some 0 ∧
    (convertToDanmakuItem ⟨1, "10,1,0,[a]", "m", 2⟩).color = "#FFFFFF" ∧
    (convertToDanmakuItem ⟨1, "10,1,0,[a]", "m", 2⟩).color ≠ "#000000" := by
  decide

/-- C5 (confirmed): `convertToDanmakuItem` is total by construction and
applies the documented per-field defaults independently: the mode is
always one of `0/1/2` and the text is carried over for every raw record,
an unparsable packed time falls back to the record's `t`, an unparsable
packed modeCode defaults to `1` (rendered as scroll mode `0`), and an
unparsable packed colorCode defaults to white `16777215`
(`"#FFFFFF"`). -/
theorem convert_total_defaults (c : RawComment) :
    ((convertToDanmakuItem c).mode = 0 ∨ (convertToDanmakuItem c).mode = 1 ∨
      (convertToDanmakuItem c).mode = 2) ∧
    (convertToDanmakuItem c).text = c.m ∧
    ((packedField c 0).bind jsParseFloat = none →
      (convertToDanmakuItem c).time = JsFloat.num c.t) ∧
    ((packedField c 1).bind jsParseInt = none → (convertToDanmakuItem c).mode = 0) ∧
    ((packedField c 2).bind jsParseInt = none →
      (convertToDanmakuItem c).color = "#FFFFFF") := by
  have hm : (convertToDanmakuItem c).mode =
      (if jsIntOrDefault (packedField c 1) 1 = 5 then 1
       else if jsIntOrDefault (packedField c 1) 1 = 4 then 2 else 0) := rfl
  refine ⟨?_, rfl, ?_, ?_, ?_⟩
  · rw [hm]
    split_ifs <;> simp
  · intro h
    have ht : (convertToDanmakuItem c).time = jsFloatOrDefault (packedField c 0) c.t := rfl
    rw [ht]
    unfold jsFloatOrDefault
    rw [h]
  · intro h
    have h1 : jsIntOrDefault (packedField c 1) 1 = 1 := by
      unfold jsIntOrDefault
      rw [h]
    rw [hm, h1]
    norm_num
  · intro h
    have hval : jsIntOrDefault (packedField c 2) 16777215 = 16777215 := by
      unfold jsIntOrDefault
      rw [h]
    have hcolor : (convertToDanmakuItem c).color =
        "#" ++ jsToUpper (jsPadStart6 (intToHexString (jsIntOrDefault (packedField c 2) 16777215))) := rfl
    rw [hcolor, hval]
    decide

/-- Witness for C5: on the malformed record `"x,y"` (non-numeric time and
mode, missing color) all three defaults apply at once. -/
theorem convert_total_defaults_witness :
    (convertToDanmakuItem ⟨1, "x,y", "hello", 7⟩).time = JsFloat.num 7 ∧
    (convertToDanmakuItem ⟨1, "x,y", "hello", 7⟩).mode = 0 ∧
    (convertToDanmakuItem ⟨1, "x,y", "hello", 7⟩).color = "#FFFFFF" ∧
    (convertToDanmakuItem ⟨1, "x,y", "hello", 7⟩).text = "hello" :=
  ⟨(convert_total_defaults ⟨1, "x,y", "hello", 7⟩).2.2.1 (by decide),
   (convert_total_defaults ⟨1, "x,y", "hello", 7⟩).2.2.2.1 (by decide),
   (convert_total_defaults ⟨1, "x,y", "hello", 7⟩).2.2.2.2 (by decide),
   (convert_total_defaults ⟨1, "x,y", "hello", 7⟩).2.1⟩

/-- C10 (confirmed): packed fields that parse to exactly `0` are falsy in
the `||` defaults and are treated like parse failures: a packed time of
`0` yields the record's fallback `t`, a packed modeCode of `0` yields the
scroll default, and a packed colorCode of `0` yields white `"#FFFFFF"`
rather than black. -/
theorem zero_packed_fields_fall_back (c : RawComment) :
    ((packedField c 0).bind jsParseFloat = some (JsFloat.num 0) →
      (convertToDanmakuItem c).time = JsFloat.num c.t) ∧
    ((packedField c 1).bind jsParseInt = some 0 → (convertToDanmakuItem c).mode = 0) ∧
    ((packedField c 2).bind jsParseInt = some 0 →
      (convertToDanmakuItem c).color = "#FFFFFF") := by
  refine ⟨?_, ?_, convert_color_of_zero c⟩
  · intro h
    have ht : (convertToDanmakuItem c).time = jsFloatOrDefault (packedField c 0) c.t := rfl
    rw [ht]
    unfold jsFloatOrDefault
    rw [h]
    norm_num
  · intro h
    have hm : (convertToDanmakuItem c).mode =
        (if jsIntOrDefault (packedField c 1) 1 = 5 then 1
         else if jsIntOrDefault (packedField c 1) 1 = 4 then 2 else 0) := rfl
    have h1 : jsIntOrDefault (packedField c 1) 1 = 1 := by
      unfold jsIntOrDefault
      rw [h]
      norm_num
    rw [hm, h1]
    norm_num

/-- Witness for C10: the record `"0,0,0,[x]"` with fallback time `5`
yields time `5`, scroll mode and white. -/
theorem zero_packed_fields_fall_back_witness :
    (convertToDanmakuItem ⟨1, "0,0,0,[x]", "hi", 5⟩).time = JsFloat.num 5 ∧
    (convertToDanmakuItem ⟨1, "0,0,0,[x]", "hi", 5⟩).mode = 0 ∧
    (convertToDanmakuItem ⟨1, "0,0,0,[x]", "hi", 5⟩).color = "#FFFFFF" :=
  ⟨(zero_packed_fields_fall_back ⟨1, "0,0,0,[x]", "hi", 5⟩).1 (by decide),
   (zero_packed_fields_fall_back ⟨1, "0,0,0,[x]", "hi", 5⟩).2.1 (by decide),
   (zero_packed_fields_fall_back ⟨1, "0,0,0,[x]", "hi", 5⟩).2.2 (by decide)⟩

/-! ## Branch equations for `handleHlsError` -/

theorem falsy_code_ne (c : Option Int) (h : jsTruthyCode c = false) (n : Int)
    (hn : n ≠ 0) : c ≠ some n := by
  cases c with
  | none => simp
  | some m =>
      unfold jsTruthyCode at h
      simp at h
      subst h
      simp only [Ne, Option.some.injEq]
      exact fun e => hn e.symm

theorem manifest_switch_eq (s : PlayerState) (d : HlsErrorData)
    (hd : d.details = "manifestLoadError") (hud : s.useDirectPlay = true)
    (hc : jsTruthyCode d.responseCode = false) :
    handleHlsError d s =
      ({ s with useDirectPlay := false, playMode := PlayMode.proxy,
                retryCount := s.retryCount + 1 }, []) := by
  have h404 := falsy_code_ne d.responseCode hc 404 (by norm_num)
  have h403 := falsy_code_ne d.responseCode hc 403 (by norm_num)
  simp [handleHlsError, hd, hud, hc, h404, h403]

theorem manifest_error_eq (s : PlayerState) (d : HlsErrorData)
    (hd : d.details = "manifestLoadError")
    (hns : ¬(s.useDirectPlay = true ∧ jsTruthyCode d.responseCode = false)) :
    handleHlsError d s =
      (setPlayerError ErrorType.manifest (manifestErrorSpec d).1 (manifestErrorSpec d).2 s,
        []) := by
  by_cases h404 : d.responseCode = some 404
  · simp [handleHlsError, hd, h404, manifestErrorSpec]
  · by_cases h403 : d.responseCode = some 403
    · simp [handleHlsError, hd, h404, h403, manifestErrorSpec]
    · by_cases hc : jsTruthyCode d.responseCode = false
      · have hud : s.useDirectPlay = false := by
          by_contra hcon
          exact hns ⟨by simpa using hcon, hc⟩
        cases hcode : d.responseCode with
        | none => simp [handleHlsError, hd, h404, h403, hud, hc, hcode, manifestErrorSpec]
        | some n =>
            have hn0 : n = 0 := by
              rw [hcode] at hc
              unfold jsTruthyCode at hc
              simpa using hc
            subst hn0
            simp [handleHlsError, hd, hud, manifestErrorSpec, hcode,
              jsTruthyCode] at *
      · have hc' : jsTruthyCode d.responseCode = true := by
          cases h : jsTruthyCode d.responseCode
          · exact absurd h hc
          · rfl
        cases hcode : d.responseCode with
        | none => rw [hcode] at hc'; simp [jsTruthyCode] at hc'
        | some n =>
            have hn0 : n ≠ 0 := by
              rw [hcode] at hc'
              unfold jsTruthyCode at hc'
              simpa using hc'
            have hn404 : n ≠ 404 := fun e => h404 (by rw [hcode, e])
            have hn403 : n ≠ 403 := fun e => h403 (by rw [hcode, e])
            simp [handleHlsError, hd, h404, h403, hcode, jsTruthyCode, hn0,
              manifestErrorSpec, hn404, hn403]

theorem frag404_eq (s : PlayerState) (d : HlsErrorData)
    (hd : d.details = "fragLoadError") (hcode : d.responseCode = some 404) :
    handleHlsError d s =
      (setPlayerError ErrorType.fragment "视频片段不存在（404），该视频可能已损坏" false s,
        []) := by
  simp [handleHlsError, hd, hcode]

theorem key_count_eq (s : PlayerState) (d : HlsErrorData)
    (hd : d.details = "keyLoadError" ∨ d.details = "keyLoadTimeOut") :
    (handleHlsError d s).1.keyErrorCount = s.keyErrorCount + 1 := by
  rcases hd with hd | hd
  · simp only [handleHlsError, hd]
    norm_num
    split <;> simp [setPlayerError]
  · simp only [handleHlsError, hd]
    norm_num
    split <;> simp [setPlayerError]

theorem nonfatal_other_eq (s : PlayerState) (d : HlsErrorData)
    (hf : d.fatal = false)
    (h1 : d.details ≠ "keyLoadError") (h2 : d.details ≠ "keyLoadTimeOut")
    (h3 : d.details ≠ "manifestLoadError")
    (h4 : ¬(d.details = "fragLoadError" ∧ d.responseCode = some 404)) :
    handleHlsError d s = (s, []) := by
  simp [handleHlsError, h1, h2, h3, h4, hf]

theorem handleHlsError_preserves_proxied (s : PlayerState) (d : HlsErrorData)
    (h : s.useDirectPlay = false) :
    (handleHlsError d s).1.useDirectPlay = false := by
  unfold handleHlsError setPlayerError
  rcases d with ⟨det, f, k, rc⟩
  simp only [h]
  repeat' split
  all_goals simp [h]

/-- C1 (confirmed): classification of every `manifestLoadError` event.
Under direct transport with a falsy response status (absent, or the `0`
an XHR reports when no HTTP status exists — hence not 403/404) the
handler switches to proxied transport and retriggers playback without
surfacing any error; otherwise it surfaces a manifest error that is
non-retryable for 404 (file not found) and 403 (link expired) under any
transport, and retryable for any other status as well as for a falsy
status under proxied transport. -/
theorem handleHlsError_manifest_classification (s : PlayerState) (d : HlsErrorData)
    (hd : d.details = "manifestLoadError") :
    (s.useDirectPlay = true → jsTruthyCode d.responseCode = false →
      handleHlsError d s =
        ({ s with useDirectPlay := false, playMode := PlayMode.proxy,
                  retryCount := s.retryCount + 1 }, []) ∧
      (handleHlsError d s).1.error = s.error) ∧
    (d.responseCode = some 404 →
      (handleHlsError d s).1.error =
        some ⟨ErrorType.manifest, "视频文件不存在（404）", false⟩) ∧
    (d.responseCode = some 403 →
      (handleHlsError d s).1.error =
        some ⟨ErrorType.manifest, "视频链接已过期或无效（403），请返回重新选择", false⟩) ∧
    (∀ n : Int, d.responseCode = some n → n ≠ 0 → n ≠ 403 → n ≠ 404 →
      (handleHlsError d s).1.error =
        some ⟨ErrorType.manifest, "视频清单加载失败 (HTTP " ++ toString n ++ ")", true⟩) ∧
    (s.useDirectPlay = false → jsTruthyCode d.responseCode = false →
      (handleHlsError d s).1.error =
        some ⟨ErrorType.manifest, "视频清单加载失败，请检查网络连接", true⟩) := by
  refine ⟨?_, ?_, ?_, ?_, ?_⟩
  · intro hud hc
    have he := manifest_switch_eq s d hd hud hc
    refine ⟨he, ?_⟩
    rw [he]
  · intro h404
    have hns : ¬(s.useDirectPlay = true ∧ jsTruthyCode d.responseCode = false) := by
      rintro ⟨_, hcf⟩
      rw [h404] at hcf
      simp [jsTruthyCode] at hcf
    rw [manifest_error_eq s d hd hns]
    simp [manifestErrorSpec, h404, setPlayerError]
  · intro h403
    have hns : ¬(s.useDirectPlay = true ∧ jsTruthyCode d.responseCode = false) := by
      rintro ⟨_, hcf⟩
      rw [h403] at hcf
      simp [jsTruthyCode] at hcf
    rw [manifest_error_eq s d hd hns]
    have h404 : d.responseCode ≠ some 404 := by
      rw [h403]
      simp
    simp [manifestErrorSpec, h403, h404, setPlayerError]
  · intro n hn h0 h403 h404
    have hns : ¬(s.useDirectPlay = true ∧ jsTruthyCode d.responseCode = false) := by
      rintro ⟨_, hcf⟩
      rw [hn] at hcf
      unfold jsTruthyCode at hcf
      simp at hcf
      exact h0 hcf
    rw [manifest_error_eq s d hd hns]
    have hn404 : d.responseCode ≠ some 404 := by
      rw [hn]
      simp [h404]
    have hn403 : d.responseCode ≠ some 403 := by
      rw [hn]
      simp [h403]
    simp [manifestErrorSpec, hn, hn404, hn403, h0, h403, h404, setPlayerError]
  · intro hud hc
    have hns : ¬(s.useDirectPlay = true ∧ jsTruthyCode d.responseCode = false) := by
      rintro ⟨h1, _⟩
      rw [hud] at h1
      exact Bool.false_ne_true h1
    rw [manifest_error_eq s d hd hns]
    have h404 := falsy_code_ne d.responseCode hc 404 (by norm_num)
    have h403 := falsy_code_ne d.responseCode hc 403 (by norm_num)
    cases hcode : d.responseCode with
    | none => simp [manifestErrorSpec, hcode, setPlayerError]
    | some n =>
        have hn0 : n = 0 := by
          rw [hcode] at hc
          unfold jsTruthyCode at hc
          simpa using hc
        subst hn0
        rw [hcode] at h404 h403
        simp [manifestErrorSpec, hcode, setPlayerError, h404, h403]

/-- Witness for C1: the four manifest outcomes at concrete events and
states. -/
theorem handleHlsError_manifest_classification_witness :
    handleHlsError ⟨"manifestLoadError", true, HlsErrorKind.otherError, none⟩
        ⟨0, 0, 0, true, PlayMode.direct, 0, none, true⟩ =
      (⟨0, 0, 0, false, PlayMode.proxy, 1, none, true⟩, []) ∧
    (handleHlsError ⟨"manifestLoadError", true, HlsErrorKind.otherError, some 404⟩
        ⟨0, 0, 0, true, PlayMode.direct, 0, none, true⟩).1.error =
      some ⟨ErrorType.manifest, "视频文件不存在（404）", false⟩ ∧
    (handleHlsError ⟨"manifestLoadError", true, HlsErrorKind.otherError, some 403⟩
        ⟨0, 0, 0, false, PlayMode.proxy, 0, none, true⟩).1.error =
      some ⟨ErrorType.manifest, "视频链接已过期或无效（403），请返回重新选择", false⟩ ∧
    (handleHlsError ⟨"manifestLoadError", true, HlsErrorKind.otherError, some 500⟩
        ⟨0, 0, 0, true, PlayMode.direct, 0, none, true⟩).1.error =
      some ⟨ErrorType.manifest, "视频清单加载失败 (HTTP 500)", true⟩ ∧
    (handleHlsError ⟨"manifestLoadError", true, HlsErrorKind.otherError, none⟩
        ⟨0, 0, 0, false, PlayMode.proxy, 0, none, true⟩).1.error =
      some ⟨ErrorType.manifest, "视频清单加载失败，请检查网络连接", true⟩ :=
  ⟨((handleHlsError_manifest_classification ⟨0, 0, 0, true, PlayMode.direct, 0, none, true⟩
      ⟨"manifestLoadError", true, HlsErrorKind.otherError, none⟩ rfl).1 rfl rfl).1,
   (handleHlsError_manifest_classification ⟨0, 0, 0, true, PlayMode.direct, 0, none, true⟩
      ⟨"manifestLoadError", true, HlsErrorKind.otherError, some 404⟩ rfl).2.1 rfl,
   (handleHlsError_manifest_classification ⟨0, 0, 0, false, PlayMode.proxy, 0, none, true⟩
      ⟨"manifestLoadError", true, HlsErrorKind.otherError, some 403⟩ rfl).2.2.1 rfl,
   (handleHlsError_manifest_classification ⟨0, 0, 0, true, PlayMode.direct, 0, none, true⟩
      ⟨"manifestLoadError", true, HlsErrorKind.otherError, some 500⟩ rfl).2.2.2.1 500 rfl
     (by norm_num) (by norm_num) (by norm_num),
   (handleHlsError_manifest_classification ⟨0, 0, 0, false, PlayMode.proxy, 0, none, true⟩
      ⟨"manifestLoadError", true, HlsErrorKind.otherError, none⟩ rfl).2.2.2.2 rfl rfl⟩

/-- C7 counterexample: the direct-mode CORS-signature manifest failure
does increment the `retryCount` state (the claim says the retry
generation is unchanged by this internal fallback). -/
theorem transport_switch_retrycount_cex :
    (handleHlsError ⟨"manifestLoadError", true, HlsErrorKind.otherError, none⟩
      ⟨0, 0, 0, true, PlayMode.direct, 0, none, true⟩).1.retryCount ≠
    (⟨0, 0, 0, true, PlayMode.direct, 0, none, true⟩ : PlayerState).retryCount := by
  decide

/-- C7 (corrected): on the direct-mode CORS-signature manifest failure the
supervisor transitions direct → proxied and resets the stream session by
incrementing `retryCount` (the effect retrigger) — the same counter an
explicit user retry increments — while issuing no error and leaving the
per-category retry counters (network/media/key) untouched; only
`handleRetry` (an explicit user retry) clears those counters. -/
theorem transport_switch_effects (s : PlayerState) (d : HlsErrorData)
    (hd : d.details = "manifestLoadError") (hud : s.useDirectPlay = true)
    (hc : jsTruthyCode d.responseCode = false) :
    (handleHlsError d s).1.useDirectPlay = false ∧
    (handleHlsError d s).1.playMode = PlayMode.proxy ∧
    (handleHlsError d s).1.retryCount = s.retryCount + 1 ∧
    (handleHlsError d s).1.networkRetryCount = s.networkRetryCount ∧
    (handleHlsError d s).1.mediaRetryCount = s.mediaRetryCount ∧
    (handleHlsError d s).1.keyErrorCount = s.keyErrorCount ∧
    (handleHlsError d s).1.error = s.error ∧
    (handleHlsError d s).2 = [] ∧
    (handleRetry s).retryCount = s.retryCount + 1 ∧
    (handleRetry s).networkRetryCount = 0 ∧
    (handleRetry s).mediaRetryCount = 0 ∧
    (handleRetry s).keyErrorCount = 0 := by
  rw [manifest_switch_eq s d hd hud hc]
  exact ⟨rfl, rfl, rfl, rfl, rfl, rfl, rfl, rfl, rfl, rfl, rfl, rfl⟩

/-- Witness for C7's amended theorem at a concrete switch event. -/
theorem transport_switch_effects_witness :
    (handleHlsError ⟨"manifestLoadError", true, HlsErrorKind.otherError, none⟩
      ⟨2, 1, 1, true, PlayMode.direct, 3, none, true⟩).1.retryCount = 4 ∧
    (handleHlsError ⟨"manifestLoadError", true, HlsErrorKind.otherError, none⟩
      ⟨2, 1, 1, true, PlayMode.direct, 3, none, true⟩).1.networkRetryCount = 1 ∧
    (handleHlsError ⟨"manifestLoadError", true, HlsErrorKind.otherError, none⟩
      ⟨2, 1, 1, true, PlayMode.direct, 3, none, true⟩).1.keyErrorCount = 2 ∧
    (handleRetry ⟨2, 1, 1, true, PlayMode.direct, 3, none, true⟩).keyErrorCount = 0 :=
  ⟨(transport_switch_effects ⟨2, 1, 1, true, PlayMode.direct, 3, none, true⟩
      ⟨"manifestLoadError", true, HlsErrorKind.otherError, none⟩ rfl rfl rfl).2.2.1,
   (transport_switch_effects ⟨2, 1, 1, true, PlayMode.direct, 3, none, true⟩
      ⟨"manifestLoadError", true, HlsErrorKind.otherError, none⟩ rfl rfl rfl).2.2.2.1,
   (transport_switch_effects ⟨2, 1, 1, true, PlayMode.direct, 3, none, true⟩
      ⟨"manifestLoadError", true, HlsErrorKind.otherError, none⟩ rfl rfl rfl).2.2.2.2.2.1,
   (transport_switch_effects ⟨2, 1, 1, true, PlayMode.direct, 3, none, true⟩
      ⟨"manifestLoadError", true, HlsErrorKind.otherError, none⟩ rfl rfl rfl).2.2.2.2.2.2.2.2.2.2.2⟩

/-- C9 counterexample: a non-fatal `manifestLoadError` with no response
status under direct transport is not ignored — it switches transport and
bumps the retry trigger even though `fatal` is `false` and it is not a
key event. -/
theorem nonfatal_manifest_acts_cex :
    (⟨"manifestLoadError", false, HlsErrorKind.otherError, none⟩ : HlsErrorData).fatal =
      false ∧
    (handleHlsError ⟨"manifestLoadError", false, HlsErrorKind.otherError, none⟩
      ⟨0, 0, 0, true, PlayMode.direct, 0, none, true⟩).1.useDirectPlay = false ∧
    (handleHlsError ⟨"manifestLoadError", false, HlsErrorKind.otherError, none⟩
      ⟨0, 0, 0, true, PlayMode.direct, 0, none, true⟩).1.retryCount = 1 ∧
    (handleHlsError ⟨"fragLoadError", false, HlsErrorKind.otherError, some 404⟩
      ⟨0, 0, 0, true, PlayMode.direct, 0, none, true⟩).1.error ≠ none := by
  decide

/-- C9 (corrected): a non-fatal event produces no state change and no
command only when it is not a key event, not a manifest event and not a
fragment-404 event; key-error counting accumulates regardless of the
fatal flag, and the manifest and fragment-404 branches also act
regardless of it. -/
theorem nonfatal_ignored_amended (s : PlayerState) (d : HlsErrorData) :
    (d.fatal = false →
      d.details ≠ "keyLoadError" → d.details ≠ "keyLoadTimeOut" →
      d.details ≠ "manifestLoadError" →
      ¬(d.details = "fragLoadError" ∧ d.responseCode = some 404) →
      handleHlsError d s = (s, [])) ∧
    ((d.details = "keyLoadError" ∨ d.details = "keyLoadTimeOut") →
      (handleHlsError d s).1.keyErrorCount = s.keyErrorCount + 1) := by
  exact ⟨fun hf h1 h2 h3 h4 => nonfatal_other_eq s d hf h1 h2 h3 h4,
    fun hk => key_count_eq s d hk⟩

/-- Witness for C9's amended theorem: a non-fatal buffer-stall event is a
no-op, and a non-fatal key event still counts. -/
theorem nonfatal_ignored_amended_witness :
    handleHlsError ⟨"bufferStalledError", false, HlsErrorKind.otherError, none⟩
      ⟨0, 0, 0, true, PlayMode.direct, 0, none, true⟩ =
      (⟨0, 0, 0, true, PlayMode.direct, 0, none, true⟩, []) ∧
    (handleHlsError ⟨"keyLoadTimeOut", false, HlsErrorKind.otherError, none⟩
      ⟨2, 0, 0, true, PlayMode.direct, 0, none, true⟩).1.keyErrorCount = 3 :=
  ⟨(nonfatal_ignored_amended ⟨0, 0, 0, true, PlayMode.direct, 0, none, true⟩
      ⟨"bufferStalledError", false, HlsErrorKind.otherError, none⟩).1 rfl
      (by decide) (by decide) (by decide) (by decide),
   (nonfatal_ignored_amended ⟨2, 0, 0, true, PlayMode.direct, 0, none, true⟩
      ⟨"keyLoadTimeOut", false, HlsErrorKind.otherError, none⟩).2 (Or.inr rfl)⟩

/-- C6 counterexample: the handler is not a pure classifier — it owns the
key-error counter.  Starting from `keyErrorCount = 4`, the same
`keyLoadError` event is silently counted on the first invocation but
produces a fatal key error display and a `stopLoad` command on the
second. -/
theorem classify_twice_differs_cex :
    (handleHlsError ⟨"keyLoadError", false, HlsErrorKind.otherError, none⟩
      ⟨4, 0, 0, true, PlayMode.direct, 0, none, true⟩).2 = [] ∧
    (handleHlsError ⟨"keyLoadError", false, HlsErrorKind.otherError, none⟩
      ⟨4, 0, 0, true, PlayMode.direct, 0, none, true⟩).1.error = none ∧
    (handleHlsError ⟨"keyLoadError", false, HlsErrorKind.otherError, none⟩
      (handleHlsError ⟨"keyLoadError", false, HlsErrorKind.otherError, none⟩
        ⟨4, 0, 0, true, PlayMode.direct, 0, none, true⟩).1).2 = [HlsCommand.stopLoad] ∧
    (handleHlsError ⟨"keyLoadError", false, HlsErrorKind.otherError, none⟩
      (handleHlsError ⟨"keyLoadError", false, HlsErrorKind.otherError, none⟩
        ⟨4, 0, 0, true, PlayMode.direct, 0, none, true⟩).1).1.error ≠ none := by
  decide

/-- C6 (corrected): the handler is a deterministic function of the event
and the component state, but not stateless.  Repeating the same event
gives an identical result on the branches that consult no counter and no
transport flag — a manifest error outside the direct-mode CORS signature,
and a fragment-404 — while key events mutate the key counter inside the
handler, so a repeated event there can escalate across the ceiling. -/
theorem handleHlsError_stateless_idempotent (s : PlayerState) (d : HlsErrorData) :
    (d.details = "manifestLoadError" →
      ¬(s.useDirectPlay = true ∧ jsTruthyCode d.responseCode = false) →
      handleHlsError d (handleHlsError d s).1 = handleHlsError d s) ∧
    (d.details = "fragLoadError" → d.responseCode = some 404 →
      handleHlsError d (handleHlsError d s).1 = handleHlsError d s) ∧
    ((d.details = "keyLoadError" ∨ d.details = "keyLoadTimeOut") →
      (handleHlsError d s).1.keyErrorCount = s.keyErrorCount + 1) := by
  refine ⟨?_, ?_, fun hk => key_count_eq s d hk⟩
  · intro hd hns
    have he := manifest_error_eq s d hd hns
    have hns1 : ¬((setPlayerError ErrorType.manifest (manifestErrorSpec d).1
        (manifestErrorSpec d).2 s).useDirectPlay = true ∧
        jsTruthyCode d.responseCode = false) := hns
    have he1 := manifest_error_eq
      (setPlayerError ErrorType.manifest (manifestErrorSpec d).1 (manifestErrorSpec d).2 s)
      d hd hns1
    rw [he]
    show handleHlsError d
      (setPlayerError ErrorType.manifest (manifestErrorSpec d).1 (manifestErrorSpec d).2 s) = _
    rw [he1]
    simp [setPlayerError]
  · intro hd hcode
    have he := frag404_eq s d hd hcode
    have he1 := frag404_eq
      (setPlayerError ErrorType.fragment "视频片段不存在（404），该视频可能已损坏" false s)
      d hd hcode
    rw [he]
    show handleHlsError d
      (setPlayerError ErrorType.fragment "视频片段不存在（404），该视频可能已损坏" false s) = _
    rw [he1]
    simp [setPlayerError]

/-- Witness for C6's amended theorem: repeating a manifest-404 and a
fragment-404 event is idempotent at a concrete state, and a key event
increments the counter. -/
theorem handleHlsError_stateless_idempotent_witness :
    handleHlsError ⟨"manifestLoadError", true, HlsErrorKind.otherError, some 404⟩
      (handleHlsError ⟨"manifestLoadError", true, HlsErrorKind.otherError, some 404⟩
        ⟨0, 0, 0, true, PlayMode.direct, 0, none, true⟩).1 =
    handleHlsError ⟨"manifestLoadError", true, HlsErrorKind.otherError, some 404⟩
      ⟨0, 0, 0, true, PlayMode.direct, 0, none, true⟩ ∧
    handleHlsError ⟨"fragLoadError", true, HlsErrorKind.otherError, some 404⟩
      (handleHlsError ⟨"fragLoadError", true, HlsErrorKind.otherError, some 404⟩
        ⟨0, 0, 0, true, PlayMode.direct, 0, none, true⟩).1 =
    handleHlsError ⟨"fragLoadError", true, HlsErrorKind.otherError, some 404⟩
      ⟨0, 0, 0, true, PlayMode.direct, 0, none, true⟩ ∧
    (handleHlsError ⟨"keyLoadError", true, HlsErrorKind.otherError, none⟩
      ⟨0, 0, 0, true, PlayMode.direct, 0, none, true⟩).1.keyErrorCount = 1 :=
  ⟨(handleHlsError_stateless_idempotent ⟨0, 0, 0, true, PlayMode.direct, 0, none, true⟩
      ⟨"manifestLoadError", true, HlsErrorKind.otherError, some 404⟩).1 rfl
      (by rintro ⟨_, hcf⟩; simp [jsTruthyCode] at hcf),
   (handleHlsError_stateless_idempotent ⟨0, 0, 0, true, PlayMode.direct, 0, none, true⟩
      ⟨"fragLoadError", true, HlsErrorKind.otherError, some 404⟩).2.1 rfl rfl,
   (handleHlsError_stateless_idempotent ⟨0, 0, 0, true, PlayMode.direct, 0, none, true⟩
      ⟨"keyLoadError", true, HlsErrorKind.otherError, none⟩).2.2 (Or.inl rfl)⟩

theorem playerStep_preserves_proxied (s : PlayerState) (e : PlayerEvent)
    (h : s.useDirectPlay = false) : (playerStep e s).useDirectPlay = false := by
  cases e with
  | probe res => simp [playerStep, initPlayerProbe, h]
  | hlsErr data => exact handleHlsError_preserves_proxied s data h
  | retry => simp [playerStep, handleRetry, h]

/-- C8 (confirmed): once the session runs on proxied transport
(`useDirectPlay = false`), no event of the supervisor — reachability
probe, HLS error, or even an explicit user retry — ever transitions it
back to direct within the mounted component, and a CORS-flagged probe
failure forces proxied mode and aborts initialization before any direct
playback attempt is made. -/
theorem transport_mode_invariant :
    (∀ (s : PlayerState) (e : PlayerEvent), s.useDirectPlay = false →
      (playerStep e s).useDirectPlay = false) ∧
    (∀ (s : PlayerState) (events : List PlayerEvent), s.useDirectPlay = false →
      (playerRun s events).useDirectPlay = false) ∧
    (∀ (s : PlayerState) (res : CorsCheckResult), s.useDirectPlay = true →
      res.success = false → res.reason = some "cors" →
      (initPlayerProbe res s).1.useDirectPlay = false ∧
      (initPlayerProbe res s).2 = false) := by
  refine ⟨playerStep_preserves_proxied, ?_, ?_⟩
  · intro s events
    induction events generalizing s with
    | nil => intro h; exact h
    | cons e rest ih =>
        intro h
        exact ih (playerStep e s) (playerStep_preserves_proxied s e h)
  · intro s res hud hsucc hreason
    constructor <;> simp [initPlayerProbe, hud, hsucc, hreason]

/-- Witness for C8: a proxied session stays proxied across a probe, a
direct-mode CORS manifest error, a network error and a user retry; and a
concrete CORS probe failure forces proxied mode without proceeding. -/
theorem transport_mode_invariant_witness :
    (playerRun ⟨0, 0, 0, false, PlayMode.proxy, 1, none, true⟩
      [PlayerEvent.probe ⟨false, some "cors", none⟩,
       PlayerEvent.hlsErr ⟨"manifestLoadError", true, HlsErrorKind.otherError, none⟩,
       PlayerEvent.hlsErr ⟨"", true, HlsErrorKind.networkError, none⟩,
       PlayerEvent.retry]).useDirectPlay = false ∧
    (initPlayerProbe ⟨false, some "cors", none⟩
      ⟨0, 0, 0, true, PlayMode.direct, 0, none, true⟩).1.useDirectPlay = false ∧
    (initPlayerProbe ⟨false, some "cors", none⟩
      ⟨0, 0, 0, true, PlayMode.direct, 0, none, true⟩).2 = false :=
  ⟨transport_mode_invariant.2.1 ⟨0, 0, 0, false, PlayMode.proxy, 1, none, true⟩
      [PlayerEvent.probe ⟨false, some "cors", none⟩,
       PlayerEvent.hlsErr ⟨"manifestLoadError", true, HlsErrorKind.otherError, none⟩,
       PlayerEvent.hlsErr ⟨"", true, HlsErrorKind.networkError, none⟩,
       PlayerEvent.retry] rfl,
   (transport_mode_invariant.2.2 ⟨0, 0, 0, true, PlayMode.direct, 0, none, true⟩
      ⟨false, some "cors", none⟩ rfl rfl rfl).1,
   (transport_mode_invariant.2.2 ⟨0, 0, 0, true, PlayMode.direct, 0, none, true⟩
      ⟨false, some "cors", none⟩ rfl rfl rfl).2⟩

/-- C2 counterexample: with every endpoint throwing (an I/O failure at
every step), the failure result carries the "no match found, search
manually" message, not the "auto-load failed, use manual search" message
the claim requires — the catch branch owning that message is unreachable
because the catalog helpers absorb their own failures. -/
theorem autoLoadDanmaku_io_failure_message_cex :
    autoLoadDanmaku
      ⟨fun _ => FetchOutcome.throwsErr, fun _ => FetchOutcome.throwsErr,
       fun _ => FetchOutcome.throwsErr, fun _ => FetchOutcome.throwsErr⟩ "abc" =
      noMatchResult ∧
    noMatchResult.message ≠ autoLoadFailedMessage := by
  decide

/-- C2 (corrected): `autoLoadDanmaku` is total (never throws — the model
is a total function and the source's catch branch is unreachable): an
empty or whitespace-only title yields the immediate "empty title"
failure, and when every endpoint fails with an I/O error the chain
completes and returns the "no match found, search manually" failure
result — not the "auto-load failed" message, which belongs to the outer
catch that the absorbing helpers make unreachable. -/
theorem autoLoadDanmaku_total_amended (api : DanmakuApi) (videoTitle : String) :
    ((videoTitle = "" ∨ jsTrim videoTitle = "") →
      autoLoadDanmaku api videoTitle = emptyTitleResult) ∧
    ((∀ t, api.matchResp t = FetchOutcome.throwsErr) →
     (∀ k, api.searchResp k = FetchOutcome.throwsErr) →
     (∀ i, api.bangumiResp i = FetchOutcome.throwsErr) →
     (∀ i, api.commentResp i = FetchOutcome.throwsErr) →
     ¬(videoTitle = "" ∨ jsTrim videoTitle = "") →
     autoLoadDanmaku api videoTitle = noMatchResult ∧
     (autoLoadDanmaku api videoTitle).message ≠ autoLoadFailedMessage) := by
  constructor
  · intro h
    unfold autoLoadDanmaku
    rw [if_pos h]
  · intro hm hs _ _ hne
    have hmatch : matchAnime api videoTitle = none := by
      unfold matchAnime
      rw [hm videoTitle]
    have hstep : autoMatchStep api videoTitle = none := by
      unfold autoMatchStep
      rw [hmatch]
    have hfall : searchFallbackStep api videoTitle = noMatchResult := by
      unfold searchFallbackStep
      by_cases hk : extractSearchKeyword videoTitle ≠ ""
      · rw [if_pos hk]
        have hempty : searchAnime api (extractSearchKeyword videoTitle) = [] := by
          unfold searchAnime
          by_cases hkk : extractSearchKeyword videoTitle = "" ∨
              jsTrim (extractSearchKeyword videoTitle) = ""
          · rw [if_pos hkk]
          · rw [if_neg hkk, hs (extractSearchKeyword videoTitle)]
        rw [hempty]
      · rw [if_neg hk]
    have hres : autoLoadDanmaku api videoTitle = noMatchResult := by
      unfold autoLoadDanmaku
      rw [if_neg hne, hstep]
      exact hfall
    refine ⟨hres, ?_⟩
    rw [hres]
    decide

/-- Witness for C2's amended theorem at a whitespace title and at a
concrete all-throwing API. -/
theorem autoLoadDanmaku_total_amended_witness :
    autoLoadDanmaku
      ⟨fun _ => FetchOutcome.throwsErr, fun _ => FetchOutcome.throwsErr,
       fun _ => FetchOutcome.throwsErr, fun _ => FetchOutcome.throwsErr⟩ "  " =
      emptyTitleResult ∧
    autoLoadDanmaku
      ⟨fun _ => FetchOutcome.throwsErr, fun _ => FetchOutcome.throwsErr,
       fun _ => FetchOutcome.throwsErr, fun _ => FetchOutcome.throwsErr⟩ "xyz" =
      noMatchResult :=
  ⟨(autoLoadDanmaku_total_amended
      ⟨fun _ => FetchOutcome.throwsErr, fun _ => FetchOutcome.throwsErr,
       fun _ => FetchOutcome.throwsErr, fun _ => FetchOutcome.throwsErr⟩ "  ").1
      (Or.inr (by decide)),
   ((autoLoadDanmaku_total_amended
      ⟨fun _ => FetchOutcome.throwsErr, fun _ => FetchOutcome.throwsErr,
       fun _ => FetchOutcome.throwsErr, fun _ => FetchOutcome.throwsErr⟩ "xyz").2
      (fun _ => rfl) (fun _ => rfl) (fun _ => rfl) (fun _ => rfl) (by decide)).1⟩

/-- C4 (confirmed): episode selection in the search-fallback path.  With
no episode token in the title the first episode is selected; with a token
the first episode whose `episodeNumber` parses to the token's number is
selected (and it does parse to that number), falling back to the first
episode when none matches; and on the search path `autoLoadDanmaku`
fetches comments exactly for the episode so selected. -/
theorem episode_selection (videoTitle : String) (firstEp : Episode)
    (episodes : List Episode) :
    (findEpisodeToken videoTitle = none →
      selectTargetEpisode videoTitle firstEp episodes = firstEp) ∧
    (∀ tok, findEpisodeToken videoTitle = some tok →
      (episodes.find? (episodeNumberMatches (jsParseInt tok)) = none →
        selectTargetEpisode videoTitle firstEp episodes = firstEp) ∧
      (∀ ep, episodes.find? (episodeNumberMatches (jsParseInt tok)) = some ep →
        selectTargetEpisode videoTitle firstEp episodes = ep ∧
        episodeNumberMatches (jsParseInt tok) ep = true)) ∧
    (∀ (api : DanmakuApi),
      autoMatchStep api videoTitle = none →
      ¬(videoTitle = "" ∨ jsTrim videoTitle = "") →
      extractSearchKeyword videoTitle ≠ "" →
      ∀ a rest, searchAnime api (extractSearchKeyword videoTitle) = a :: rest →
      ∀ b, getBangumi api a.animeId = some b →
      ∀ e0 tl, b.episodes = e0 :: tl →
      autoLoadDanmaku api videoTitle =
        (if (getComments api
              (selectTargetEpisode videoTitle e0 b.episodes).episodeId).length > 0 then
          ⟨true,
            getComments api (selectTargetEpisode videoTitle e0 b.episodes).episodeId,
            some a.animeTitle,
            some (selectTargetEpisode videoTitle e0 b.episodes).episodeTitle,
            "已加载 " ++ toString (getComments api
              (selectTargetEpisode videoTitle e0 b.episodes).episodeId).length ++
              " 条弹幕 (搜索匹配)"⟩
        else noMatchResult)) := by
  refine ⟨?_, ?_, ?_⟩
  · intro h
    simp [selectTargetEpisode, h]
  · intro tok htok
    constructor
    · intro hfind
      simp [selectTargetEpisode, htok, hfind]
    · intro ep hfind
      exact ⟨by simp [selectTargetEpisode, htok, hfind], List.find?_some hfind⟩
  · intro api hstep hne hk a rest hsearch b hb e0 tl heps
    unfold autoLoadDanmaku
    rw [if_neg hne, hstep]
    show searchFallbackStep api videoTitle = _
    unfold searchFallbackStep
    rw [if_pos hk]
    simp only [hsearch, hb, heps]

/-- Witness for C4: in the title `"Some Show E07.mp4"` the `E07` token
selects the episode numbered 7 (not the first), and the search path
loads that episode's comments. -/
theorem episode_selection_witness :
    selectTargetEpisode "Some Show E07.mp4" sampleEpisode1 sampleBangumi.episodes =
      sampleEpisode7 ∧
    (autoLoadDanmaku searchOnlyApi "Some Show E07.mp4").success = true ∧
    (autoLoadDanmaku searchOnlyApi "Some Show E07.mp4").episodeTitle = some "seventh" ∧
    (autoLoadDanmaku searchOnlyApi "Some Show E07.mp4").matchedTitle = some "Some Show" := by
  have hsel :=
    (((episode_selection "Some Show E07.mp4" sampleEpisode1 sampleBangumi.episodes).2.1
      "07" (by decide)).2 sampleEpisode7 (by decide)).1
  have hwire :=
    (episode_selection "Some Show E07.mp4" sampleEpisode1 sampleBangumi.episodes).2.2
      searchOnlyApi (by decide) (by decide) (by decide) sampleAnime [] (by decide)
      sampleBangumi (by decide) sampleEpisode1 [sampleEpisode7] (by decide)
  refine ⟨hsel, ?_, ?_, ?_⟩ <;> rw [hwire] <;> decide
